import Mathlib

/-!
Verification development for the solar-spa package: a WebAssembly build of
the NREL Solar Position Algorithm with a TypeScript binding (src/index.ts),
a modern C wrapper (spa_wrapper.c, 18 arguments), and a legacy v1 binding
(solar-spa.js with a 15-argument wrapper).

The TypeScript layer, both C wrappers and the legacy JS binding are embedded
directly from the source. The NREL core spa_calculate (spa.c) is not part of
the repository source tree; its input validation and its dispatch over the
four function codes are modelled from the specification, with the stage
computations (heliocentric series, nutation, topocentric transform,
refraction, the rise/transit/set interpolation) kept abstract as parameters
of a SpaEngine structure. Doubles are modelled as rationals, C ints as Int.
-/

/-- The scalar input fields of the spa_data struct, as assigned by both C
wrappers (spa_wrapper.c). The function code is kept separate, in SpaData. -/
structure SpaInput where
  year : Int
  month : Int
  day : Int
  hour : Int
  minute : Int
  second : ℚ
  timezone : ℚ
  latitude : ℚ
  longitude : ℚ
  elevation : ℚ
  pressure : ℚ
  temperature : ℚ
  delta_ut1 : ℚ
  delta_t : ℚ
  slope : ℚ
  azm_rotation : ℚ
  atmos_refract : ℚ

/-- The spa_data struct handed to spa_calculate: the input scalars plus the
requested function code. -/
structure SpaData extends SpaInput where
  function : Nat

/-- SPA function codes, from src/types.ts. -/
def SPA_ZA : Nat := 0

/-- SPA function code ZA_INC, from src/types.ts. -/
def SPA_ZA_INC : Nat := 1

/-- SPA function code ZA_RTS, from src/types.ts. -/
def SPA_ZA_RTS : Nat := 2

/-- SPA function code ALL, from src/types.ts. -/
def SPA_ALL : Nat := 3

/-- Modelled from the spec: the input validation of spa_calculate (spa.c is
not in the source tree). Section 6 of the spec lists one bound per field and
requires that validation run before any computation, checking the fields in
a fixed deterministic order and returning a distinct, stable non-zero error
code for the first field that violates its bound, with no silent clamping.
The codes here number the fields in the order of the table in section 6. -/
def validate_inputs (d : SpaInput) : Nat :=
  if d.year < -2000 ∨ 6000 < d.year then 1
  else if d.month < 1 ∨ 12 < d.month then 2
  else if d.day < 1 ∨ 31 < d.day then 3
  else if d.hour < 0 ∨ 24 < d.hour then 4
  else if d.minute < 0 ∨ 59 < d.minute then 5
  else if d.second < 0 ∨ 60 ≤ d.second then 6
  else if d.timezone < -18 ∨ 18 < d.timezone then 7
  else if d.latitude < -90 ∨ 90 < d.latitude then 8
  else if d.longitude < -180 ∨ 180 < d.longitude then 9
  else if d.elevation < -6500000 then 10
  else if d.pressure < 0 ∨ 5000 < d.pressure then 11
  else if d.temperature < -273 ∨ 6000 < d.temperature then 12
  else if d.delta_ut1 < -1 ∨ 1 < d.delta_ut1 then 13
  else if d.delta_t < -8000 ∨ 8000 < d.delta_t then 14
  else if d.slope < -360 ∨ 360 < d.slope then 15
  else if d.azm_rotation < -360 ∨ 360 < d.azm_rotation then 16
  else if d.atmos_refract < -5 ∨ 5 < d.atmos_refract then 17
  else 0

/-- All seventeen input fields are inside their documented bounds; the
conjuncts are the negations of the violation conditions checked by
validate_inputs, in the same order. -/
def inBounds (d : SpaInput) : Prop :=
  ¬(d.year < -2000 ∨ 6000 < d.year) ∧
  ¬(d.month < 1 ∨ 12 < d.month) ∧
  ¬(d.day < 1 ∨ 31 < d.day) ∧
  ¬(d.hour < 0 ∨ 24 < d.hour) ∧
  ¬(d.minute < 0 ∨ 59 < d.minute) ∧
  ¬(d.second < 0 ∨ 60 ≤ d.second) ∧
  ¬(d.timezone < -18 ∨ 18 < d.timezone) ∧
  ¬(d.latitude < -90 ∨ 90 < d.latitude) ∧
  ¬(d.longitude < -180 ∨ 180 < d.longitude) ∧
  ¬(d.elevation < -6500000) ∧
  ¬(d.pressure < 0 ∨ 5000 < d.pressure) ∧
  ¬(d.temperature < -273 ∨ 6000 < d.temperature) ∧
  ¬(d.delta_ut1 < -1 ∨ 1 < d.delta_ut1) ∧
  ¬(d.delta_t < -8000 ∨ 8000 < d.delta_t) ∧
  ¬(d.slope < -360 ∨ 360 < d.slope) ∧
  ¬(d.azm_rotation < -360 ∨ 360 < d.azm_rotation) ∧
  ¬(d.atmos_refract < -5 ∨ 5 < d.atmos_refract)

/-- The field numbered c (in the order of the bounds table of spec section 6)
violates its bound in d. Used to state that a non-zero error code identifies
the offending field. -/
def violatesBound (d : SpaInput) (c : Nat) : Prop :=
  if c = 1 then d.year < -2000 ∨ 6000 < d.year
  else if c = 2 then d.month < 1 ∨ 12 < d.month
  else if c = 3 then d.day < 1 ∨ 31 < d.day
  else if c = 4 then d.hour < 0 ∨ 24 < d.hour
  else if c = 5 then d.minute < 0 ∨ 59 < d.minute
  else if c = 6 then d.second < 0 ∨ 60 ≤ d.second
  else if c = 7 then d.timezone < -18 ∨ 18 < d.timezone
  else if c = 8 then d.latitude < -90 ∨ 90 < d.latitude
  else if c = 9 then d.longitude < -180 ∨ 180 < d.longitude
  else if c = 10 then d.elevation < -6500000
  else if c = 11 then d.pressure < 0 ∨ 5000 < d.pressure
  else if c = 12 then d.temperature < -273 ∨ 6000 < d.temperature
  else if c = 13 then d.delta_ut1 < -1 ∨ 1 < d.delta_ut1
  else if c = 14 then d.delta_t < -8000 ∨ 8000 < d.delta_t
  else if c = 15 then d.slope < -360 ∨ 360 < d.slope
  else if c = 16 then d.azm_rotation < -360 ∨ 360 < d.azm_rotation
  else if c = 17 then d.atmos_refract < -5 ∨ 5 < d.atmos_refract
  else False

/-- Modelled from the spec: reduction of an angle in degrees to [0, 360),
the mod 360 operation named by the azimuth-convention contract in sections
4.6 and 6 (the C helper limit_degrees of spa.c, which is not in the source
tree). -/
def limit_degrees (deg : ℚ) : ℚ := deg - 360 * ⌊deg / 360⌋

/-- The zenith and astronomical azimuth produced by the current-instant path
(spec sections 4.1 to 4.6), kept abstract. -/
structure ZACore where
  zenith : ℚ
  azimuth_astro : ℚ

/-- Outcome of the rise/transit/set solver (spec section 4.7): either the
three crossing times with the transit altitude, or the NO_CROSSING terminal
state (polar day or polar night). -/
inductive RtsOutcome where
  | times (sunrise : ℚ) (suntransit : ℚ) (sunset : ℚ) (sta : ℚ)
  | noCrossing

/-- The output fields of spa_calculate read back by the wrappers. sta is the
sun transit altitude. -/
structure SpaOutputs where
  zenith : ℚ
  azimuth_astro : ℚ
  azimuth : ℚ
  incidence : ℚ
  sunrise : ℚ
  sunset : ℚ
  suntransit : ℚ
  sta : ℚ
  eot : ℚ

/-- Modelled from the spec: the computation stages of spa_calculate that the
repository source does not contain, kept abstract. za is the current-instant
zenith and astronomical azimuth path (sections 4.1 to 4.6); incidence the
tilted-surface formula (section 4.6); rts the rise/transit/set solver
(section 4.7); eot the equation of time (section 4.4). The stages read only
the seventeen validated input scalars, never the function code, because
section 4.8 dispatches every code through the same stage implementations.
uninit stands for the indeterminate values of output fields that the
requested function code does not compute and the C code leaves unassigned. -/
structure SpaEngine where
  za : SpaInput → ZACore
  incidence : SpaInput → ZACore → ℚ
  rts : SpaInput → RtsOutcome
  eot : SpaInput → ℚ
  uninit : SpaOutputs

/-- Modelled from the spec: the sentinel reported for sunrise, sunset,
suntransit and the transit altitude in the NO_CROSSING state. The binding
documentation (README, CHANGELOG, wiki API reference) records that polar day
and polar night produce negative or non-finite sunrise/sunset values, which
formatTime renders as N/A; the NREL reference implementation uses the
negative filler -99999 for exactly these fields. -/
def noCrossingSentinel : ℚ := -99999

/-- Modelled from the spec: spa_calculate (spa.c, not in the source tree).
Section 4.8: validate every input field first and stop with the non-zero
code of the first violation, attempting no computation; on success run the
current-instant path for every function code, add the incidence formula for
ZA_INC and ALL, and run the rise/transit/set solver for ZA_RTS and ALL.
Section 4.6: the navigational azimuth is the astronomical azimuth plus 180
degrees, reduced mod 360. Returns the error code together with the output
fields; on failure the outputs are the untouched (indeterminate) values. -/
def spa_calculate (E : SpaEngine) (d : SpaData) : Nat × SpaOutputs :=
  let rc := validate_inputs d.toSpaInput
  if rc ≠ 0 then (rc, E.uninit)
  else
    let core := E.za d.toSpaInput
    let o1 : SpaOutputs :=
      { E.uninit with
        zenith := core.zenith
        azimuth_astro := core.azimuth_astro
        azimuth := limit_degrees (core.azimuth_astro + 180) }
    let o2 : SpaOutputs :=
      if d.function = SPA_ZA_INC ∨ d.function = SPA_ALL then
        { o1 with incidence := E.incidence d.toSpaInput core }
      else o1
    let o3 : SpaOutputs :=
      if d.function = SPA_ZA_RTS ∨ d.function = SPA_ALL then
        match E.rts d.toSpaInput with
        | RtsOutcome.times rise transit sset alt =>
          { o2 with
            sunrise := rise
            suntransit := transit
            sunset := sset
            sta := alt
            eot := E.eot d.toSpaInput }
        | RtsOutcome.noCrossing =>
          { o2 with
            sunrise := noCrossingSentinel
            suntransit := noCrossingSentinel
            sunset := noCrossingSentinel
            sta := noCrossingSentinel
            eot := E.eot d.toSpaInput }
      else o2
    (0, o3)

/-- The result struct of the modern wrapper (spa_wrapper.c, 18 arguments):
nine doubles and the error code. -/
structure spa_result where
  zenith : ℚ
  azimuth_astro : ℚ
  azimuth : ℚ
  incidence : ℚ
  sunrise : ℚ
  sunset : ℚ
  suntransit : ℚ
  sun_transit_alt : ℚ
  eot : ℚ
  error_code : Nat

/-- The spa_data built by the modern wrapper: every argument is copied into
the corresponding field unchanged (spa_wrapper.c, 18-argument version). -/
def modern_build_spa_data (inp : SpaInput) (function_code : Nat) : SpaData :=
  { year := inp.year
    month := inp.month
    day := inp.day
    hour := inp.hour
    minute := inp.minute
    second := inp.second
    timezone := inp.timezone
    latitude := inp.latitude
    longitude := inp.longitude
    elevation := inp.elevation
    pressure := inp.pressure
    temperature := inp.temperature
    delta_ut1 := inp.delta_ut1
    delta_t := inp.delta_t
    slope := inp.slope
    azm_rotation := inp.azm_rotation
    atmos_refract := inp.atmos_refract
    function := function_code }

/-- The modern wrapper spa_calculate_wrapper (spa_wrapper.c, 18 arguments):
copies the arguments into spa_data, runs spa_calculate, stores the return
code in error_code, and on a non-zero code fills every double field of the
result with 0.0 instead of the engine outputs. -/
def spa_calculate_wrapper (E : SpaEngine) (inp : SpaInput) (function_code : Nat) : spa_result :=
  let spa : SpaData := modern_build_spa_data inp function_code
  let p := spa_calculate E spa
  let rc := p.1
  if rc = 0 then
    { zenith := p.2.zenith
      azimuth_astro := p.2.azimuth_astro
      azimuth := p.2.azimuth
      incidence := p.2.incidence
      sunrise := p.2.sunrise
      sunset := p.2.sunset
      suntransit := p.2.suntransit
      sun_transit_alt := p.2.sta
      eot := p.2.eot
      error_code := rc }
  else
    { zenith := 0
      azimuth_astro := 0
      azimuth := 0
      incidence := 0
      sunrise := 0
      sunset := 0
      suntransit := 0
      sun_transit_alt := 0
      eot := 0
      error_code := rc }

/-- A JavaScript number as seen by the binding: a finite value, NaN, or an
infinity. isFinite is true exactly on the num constructor. -/
inductive JSNum where
  | num (q : ℚ)
  | nan
  | inf
  | neginf

/-- The Date argument of the TypeScript binding, reduced to the accessors
the binding calls. valid models (date instanceof Date) with a non-NaN time
value; getMonth is zero-based, as in JavaScript, and the binding adds one. -/
structure JSDate where
  valid : Bool
  getFullYear : Int
  getMonth : Int
  getDate : Int
  getHours : Int
  getMinutes : Int
  getSeconds : Int
  getTimezoneOffset : ℚ

/-- The options object of the TypeScript binding (src/types.ts). A none
field stands for an omitted property; the binding substitutes the default
with the ?? operator. -/
structure SpaOptionsTS where
  timezone : Option ℚ
  elevation : Option ℚ
  pressure : Option ℚ
  temperature : Option ℚ
  delta_ut1 : Option ℚ
  delta_t : Option ℚ
  slope : Option ℚ
  azm_rotation : Option ℚ
  atmos_refract : Option ℚ
  function : Option Nat

/-- The options object with every property omitted, used for the
options ?? \x7b\x7d fallback in src/index.ts. -/
def emptyOptions : SpaOptionsTS :=
  { timezone := none
    elevation := none
    pressure := none
    temperature := none
    delta_ut1 := none
    delta_t := none
    slope := none
    azm_rotation := none
    atmos_refract := none
    function := none }

/-- The errors the TypeScript binding throws: TypeError for a bad date or a
non-finite coordinate, RangeError for an out-of-range coordinate, and Error
for a non-zero SPA error code. Messages keep the static part of the source
text. -/
inductive JsError where
  | typeError (msg : String)
  | rangeError (msg : String)
  | calcError (code : Nat)

/-- String(n).padStart(2, 0-character) for the two-digit time components of
formatTime (src/index.ts). -/
def pad2 (n : Nat) : String := if n < 10 then "0" ++ toString n else toString n

/-- formatTime from src/index.ts: N/A for non-finite or negative input,
otherwise rounds the fractional hours to the nearest whole second
(Math.round, half away from zero on the non-negative range), wraps the hour
at 24, and prints HH:MM:SS with zero-padded two-digit components. The local
names mirror the source: totalSec, h, rem, m, s. -/
def formatTime (hours : JSNum) : String :=
  match hours with
  | JSNum.num q =>
    if q < 0 then "N/A"
    else
      let totalSec : Nat := (⌊q * 3600 + 1/2⌋).toNat
      let h : Nat := totalSec / 3600 % 24
      let rem : Nat := totalSec - totalSec / 3600 * 3600
      let m : Nat := rem / 60
      let s : Nat := rem - m * 60
      pad2 h ++ ":" ++ pad2 m ++ ":" ++ pad2 s
  | _ => "N/A"

/-- The spa function of src/index.ts. Checks, in source order: the date is
valid, latitude and longitude are finite numbers, latitude lies in
[-90, 90], longitude lies in [-180, 180]; each failure throws before the
WASM engine is reached. Then marshals the arguments with the documented
defaults and calls the modern wrapper; a non-zero error_code in the result
struct throws Error, otherwise the result object is returned. The engine is
a parameter, so a theorem quantified over E states behavior independent of
the WASM module. -/
def spaTS (E : SpaEngine) (date : JSDate) (latitude : JSNum) (longitude : JSNum)
    (options : Option SpaOptionsTS) : Except JsError spa_result :=
  if ¬ date.valid then Except.error (JsError.typeError "SPA: date must be a valid Date object")
  else
    match latitude with
    | JSNum.num lat =>
      match longitude with
      | JSNum.num lon =>
        if lat < -90 ∨ 90 < lat then
          Except.error (JsError.rangeError "SPA: latitude must be between -90 and 90")
        else if lon < -180 ∨ 180 < lon then
          Except.error (JsError.rangeError "SPA: longitude must be between -180 and 180")
        else
          let opts := options.getD emptyOptions
          let tz := opts.timezone.getD (-(date.getTimezoneOffset / 60))
          let r := spa_calculate_wrapper E
            { year := date.getFullYear
              month := date.getMonth + 1
              day := date.getDate
              hour := date.getHours
              minute := date.getMinutes
              second := (date.getSeconds : ℚ)
              timezone := tz
              latitude := lat
              longitude := lon
              elevation := opts.elevation.getD 0
              pressure := opts.pressure.getD 1013.25
              temperature := opts.temperature.getD 15
              delta_ut1 := opts.delta_ut1.getD 0
              delta_t := opts.delta_t.getD 67
              slope := opts.slope.getD 0
              azm_rotation := opts.azm_rotation.getD 0
              atmos_refract := opts.atmos_refract.getD 0.5667 }
            (opts.function.getD SPA_ALL)
          if r.error_code ≠ 0 then Except.error (JsError.calcError r.error_code)
          else Except.ok r
      | _ => Except.error (JsError.typeError "SPA: longitude must be a finite number")
    | _ => Except.error (JsError.typeError "SPA: latitude must be a finite number")

/-- The result of spaFormatted (src/types.ts SpaFormattedResult): identical
to spa_result except that sunrise, sunset and suntransit are strings. -/
structure SpaFormattedResultTS where
  zenith : ℚ
  azimuth_astro : ℚ
  azimuth : ℚ
  incidence : ℚ
  sunrise : String
  sunset : String
  suntransit : String
  sun_transit_alt : ℚ
  eot : ℚ
  error_code : Nat

/-- spaFormatted from src/index.ts: awaits spa with the same arguments and
rebuilds the result object, passing sunrise, sunset and suntransit through
formatTime and copying every other field unchanged. -/
def spaFormattedTS (E : SpaEngine) (date : JSDate) (latitude : JSNum) (longitude : JSNum)
    (options : Option SpaOptionsTS) : Except JsError SpaFormattedResultTS :=
  (spaTS E date latitude longitude options).map fun result =>
    { zenith := result.zenith
      azimuth_astro := result.azimuth_astro
      azimuth := result.azimuth
      incidence := result.incidence
      sunrise := formatTime (JSNum.num result.sunrise)
      sunset := formatTime (JSNum.num result.sunset)
      suntransit := formatTime (JSNum.num result.suntransit)
      sun_transit_alt := result.sun_transit_alt
      eot := result.eot
      error_code := result.error_code }

/-- The result struct of the legacy wrapper (src/spa_wrapper.c, 15-argument
version): seven doubles and no error code field. -/
structure legacy_spa_result where
  zenith : ℚ
  azimuth : ℚ
  incidence : ℚ
  sunrise : ℚ
  sunset : ℚ
  solar_noon : ℚ
  sun_transit_alt : ℚ

/-- The spa_data built by the legacy wrapper (src/spa_wrapper.c lines 27-47).
A pressure, temperature or atmos_refract argument equal to 0.0 is replaced
by the wrapper defaults 820.0, 11.0 and 0.5667; the function code is fixed
to SPA_ALL. The wrapper never assigns delta_ut1 or delta_t, so those fields
keep the indeterminate stack contents, passed here as the two mem
parameters. -/
def legacy_build_spa_data (delta_ut1_mem delta_t_mem : ℚ)
    (year month day hour minute : Int)
    (second timezone latitude longitude elevation pressure temperature slope azm_rotation atmos_refract : ℚ) :
    SpaData :=
  { year := year
    month := month
    day := day
    hour := hour
    minute := minute
    second := second
    timezone := timezone
    latitude := latitude
    longitude := longitude
    elevation := elevation
    pressure := if pressure = 0 then 820 else pressure
    temperature := if temperature = 0 then 11 else temperature
    delta_ut1 := delta_ut1_mem
    delta_t := delta_t_mem
    slope := slope
    azm_rotation := azm_rotation
    atmos_refract := if atmos_refract = 0 then 0.5667 else atmos_refract
    function := SPA_ALL }

/-- The legacy wrapper spa_calculate_wrapper (src/spa_wrapper.c, 15
arguments): builds spa_data with the defaulting above, runs spa_calculate,
and fills the seven result doubles from the outputs on code 0 or with 0.0
otherwise. The return code itself is discarded: the struct has no error
field. -/
def legacy_spa_calculate_wrapper (E : SpaEngine) (delta_ut1_mem delta_t_mem : ℚ)
    (year month day hour minute : Int)
    (second timezone latitude longitude elevation pressure temperature slope azm_rotation atmos_refract : ℚ) :
    legacy_spa_result :=
  let spa := legacy_build_spa_data delta_ut1_mem delta_t_mem year month day hour minute
    second timezone latitude longitude elevation pressure temperature slope azm_rotation atmos_refract
  let p := spa_calculate E spa
  if p.1 = 0 then
    { zenith := p.2.zenith
      azimuth := p.2.azimuth
      incidence := p.2.incidence
      sunrise := p.2.sunrise
      sunset := p.2.sunset
      solar_noon := p.2.suntransit
      sun_transit_alt := p.2.sta }
  else
    { zenith := 0
      azimuth := 0
      incidence := 0
      sunrise := 0
      sunset := 0
      solar_noon := 0
      sun_transit_alt := 0 }

/-- The legacy JS binding (solar-spa.js): reads the date accessors, derives
the timezone from getTimezoneOffset, fixes slope and azm_rotation to 0, and
calls the legacy wrapper; the promise then resolves with the seven struct
fields read back in declaration order. Defaults documented in the README:
elevation 0, temperature 20, pressure 1013.25, refraction 0.5667. The value
is a plain record: resolution carries no error information. -/
def legacy_spa_js (E : SpaEngine) (delta_ut1_mem delta_t_mem : ℚ) (date : JSDate)
    (latitude longitude elevation temperature pressure refraction : ℚ) : legacy_spa_result :=
  legacy_spa_calculate_wrapper E delta_ut1_mem delta_t_mem
    date.getFullYear (date.getMonth + 1) date.getDate date.getHours date.getMinutes
    (date.getSeconds : ℚ) (-(date.getTimezoneOffset / 60))
    latitude longitude elevation pressure temperature 0 0 refraction

/-- An engine instance with constant stages, used to instantiate theorems
that are quantified over every engine. -/
def trivialEngine : SpaEngine :=
  { za := fun _ => { zenith := 0, azimuth_astro := 0 }
    incidence := fun _ _ => 0
    rts := fun _ => RtsOutcome.noCrossing
    eot := fun _ => 0
    uninit :=
      { zenith := 0
        azimuth_astro := 0
        azimuth := 0
        incidence := 0
        sunrise := 0
        sunset := 0
        suntransit := 0
        sta := 0
        eot := 0 } }

/-- The out-of-range input of validation scenario 55 (validate.mjs): year
6001, June 21 noon, latitude 30, longitude 0, timezone 0, delta_t 0, with
the TypeScript defaults for the remaining fields. -/
def year6001Input : SpaInput :=
  { year := 6001
    month := 6
    day := 21
    hour := 12
    minute := 0
    second := 0
    timezone := 0
    latitude := 30
    longitude := 0
    elevation := 0
    pressure := 1013.25
    temperature := 15
    delta_ut1 := 0
    delta_t := 0
    slope := 0
    azm_rotation := 0
    atmos_refract := 0.5667 }

/-- An input with every field inside its documented bound, used to
instantiate theorems with validity hypotheses: NYC, June 21 2025 noon,
timezone -4, elevation 10, otherwise the TypeScript defaults. -/
def validInput : SpaInput :=
  { year := 2025
    month := 6
    day := 21
    hour := 12
    minute := 0
    second := 0
    timezone := -4
    latitude := 40
    longitude := -74
    elevation := 10
    pressure := 1013.25
    temperature := 15
    delta_ut1 := 0
    delta_t := 67
    slope := 0
    azm_rotation := 0
    atmos_refract := 0.5667 }

/-- An engine whose success outputs make every legacy result field zero:
the astronomical azimuth 180 turns into navigational azimuth 0. Used to
show an all-zero legacy result is also reachable by a valid computation. -/
def allZeroResultEngine : SpaEngine :=
  { za := fun _ => { zenith := 0, azimuth_astro := 180 }
    incidence := fun _ _ => 0
    rts := fun _ => RtsOutcome.times 0 0 0 0
    eot := fun _ => 0
    uninit :=
      { zenith := 0
        azimuth_astro := 0
        azimuth := 0
        incidence := 0
        sunrise := 0
        sunset := 0
        suntransit := 0
        sta := 0
        eot := 0 } }

/-- A valid Date fixture: June 21 2025 noon, with a 240-minute local
offset. getMonth is zero-based as in JavaScript. -/
def testDate : JSDate :=
  { valid := true
    getFullYear := 2025
    getMonth := 5
    getDate := 21
    getHours := 12
    getMinutes := 0
    getSeconds := 0
    getTimezoneOffset := 240 }

/-- An options fixture with every property present. -/
def testOptions : SpaOptionsTS :=
  { timezone := some (-4)
    elevation := some 10
    pressure := some 1000
    temperature := some 15
    delta_ut1 := some 0
    delta_t := some 67
    slope := some 0
    azm_rotation := some 0
    atmos_refract := some 1
    function := some SPA_ALL }

/-- The SpaInput that spaTS marshals from testDate, latitude 40, longitude
-74 and testOptions. -/
def testInput : SpaInput :=
  { year := 2025
    month := 6
    day := 21
    hour := 12
    minute := 0
    second := 0
    timezone := -4
    latitude := 40
    longitude := -74
    elevation := 10
    pressure := 1000
    temperature := 15
    delta_ut1 := 0
    delta_t := 67
    slope := 0
    azm_rotation := 0
    atmos_refract := 1 }

/-- The result the modern wrapper produces for testInput under
trivialEngine: a NO_CROSSING day, so the solver fields carry the
sentinel. -/
def testResult : spa_result :=
  { zenith := 0
    azimuth_astro := 0
    azimuth := 180
    incidence := 0
    sunrise := -99999
    sunset := -99999
    suntransit := -99999
    sun_transit_alt := -99999
    eot := 0
    error_code := 0 }

/-- Validation accepts every input whose fields are all inside their
documented bounds. -/
theorem validate_inputs_of_inBounds (d : SpaInput) (h : inBounds d) :
    validate_inputs d = 0 := by
  obtain ⟨n1, n2, n3, n4, n5, n6, n7, n8, n9, n10, n11, n12, n13, n14, n15, n16, n17⟩ := h
  simp only [validate_inputs, if_neg n1, if_neg n2, if_neg n3, if_neg n4, if_neg n5,
    if_neg n6, if_neg n7, if_neg n8, if_neg n9, if_neg n10, if_neg n11, if_neg n12,
    if_neg n13, if_neg n14, if_neg n15, if_neg n16, if_neg n17]

/-- A violation is named by the code: either the field numbered by the
returned code violates its bound, or validation returned 0. -/
theorem validate_inputs_names (d : SpaInput) :
    violatesBound d (validate_inputs d) ∨ validate_inputs d = 0 := by
  by_cases h1 : d.year < -2000 ∨ 6000 < d.year
  · have hv : validate_inputs d = 1 := by
      simp only [validate_inputs, if_pos h1]
    refine Or.inl ?_
    rw [hv]
    exact h1
  by_cases h2 : d.month < 1 ∨ 12 < d.month
  · have hv : validate_inputs d = 2 := by
      simp only [validate_inputs, if_neg h1, if_pos h2]
    refine Or.inl ?_
    rw [hv]
    exact h2
  by_cases h3 : d.day < 1 ∨ 31 < d.day
  · have hv : validate_inputs d = 3 := by
      simp only [validate_inputs, if_neg h1, if_neg h2, if_pos h3]
    refine Or.inl ?_
    rw [hv]
    exact h3
  by_cases h4 : d.hour < 0 ∨ 24 < d.hour
  · have hv : validate_inputs d = 4 := by
      simp only [validate_inputs, if_neg h1, if_neg h2, if_neg h3, if_pos h4]
    refine Or.inl ?_
    rw [hv]
    exact h4
  by_cases h5 : d.minute < 0 ∨ 59 < d.minute
  · have hv : validate_inputs d = 5 := by
      simp only [validate_inputs, if_neg h1, if_neg h2, if_neg h3, if_neg h4, if_pos h5]
    refine Or.inl ?_
    rw [hv]
    exact h5
  by_cases h6 : d.second < 0 ∨ 60 ≤ d.second
  · have hv : validate_inputs d = 6 := by
      simp only [validate_inputs, if_neg h1, if_neg h2, if_neg h3, if_neg h4, if_neg h5, if_pos h6]
    refine Or.inl ?_
    rw [hv]
    exact h6
  by_cases h7 : d.timezone < -18 ∨ 18 < d.timezone
  · have hv : validate_inputs d = 7 := by
      simp only [validate_inputs, if_neg h1, if_neg h2, if_neg h3, if_neg h4, if_neg h5, if_neg h6, if_pos h7]
    refine Or.inl ?_
    rw [hv]
    exact h7
  by_cases h8 : d.latitude < -90 ∨ 90 < d.latitude
  · have hv : validate_inputs d = 8 := by
      simp only [validate_inputs, if_neg h1, if_neg h2, if_neg h3, if_neg h4, if_neg h5, if_neg h6, if_neg h7, if_pos h8]
    refine Or.inl ?_
    rw [hv]
    exact h8
  by_cases h9 : d.longitude < -180 ∨ 180 < d.longitude
  · have hv : validate_inputs d = 9 := by
      simp only [validate_inputs, if_neg h1, if_neg h2, if_neg h3, if_neg h4, if_neg h5, if_neg h6, if_neg h7, if_neg h8, if_pos h9]
    refine Or.inl ?_
    rw [hv]
    exact h9
  by_cases h10 : d.elevation < -6500000
  · have hv : validate_inputs d = 10 := by
      simp only [validate_inputs, if_neg h1, if_neg h2, if_neg h3, if_neg h4, if_neg h5, if_neg h6, if_neg h7, if_neg h8, if_neg h9, if_pos h10]
    refine Or.inl ?_
    rw [hv]
    exact h10
  by_cases h11 : d.pressure < 0 ∨ 5000 < d.pressure
  · have hv : validate_inputs d = 11 := by
      simp only [validate_inputs, if_neg h1, if_neg h2, if_neg h3, if_neg h4, if_neg h5, if_neg h6, if_neg h7, if_neg h8, if_neg h9, if_neg h10, if_pos h11]
    refine Or.inl ?_
    rw [hv]
    exact h11
  by_cases h12 : d.temperature < -273 ∨ 6000 < d.temperature
  · have hv : validate_inputs d = 12 := by
      simp only [validate_inputs, if_neg h1, if_neg h2, if_neg h3, if_neg h4, if_neg h5, if_neg h6, if_neg h7, if_neg h8, if_neg h9, if_neg h10, if_neg h11, if_pos h12]
    refine Or.inl ?_
    rw [hv]
    exact h12
  by_cases h13 : d.delta_ut1 < -1 ∨ 1 < d.delta_ut1
  · have hv : validate_inputs d = 13 := by
      simp only [validate_inputs, if_neg h1, if_neg h2, if_neg h3, if_neg h4, if_neg h5, if_neg h6, if_neg h7, if_neg h8, if_neg h9, if_neg h10, if_neg h11, if_neg h12, if_pos h13]
    refine Or.inl ?_
    rw [hv]
    exact h13
  by_cases h14 : d.delta_t < -8000 ∨ 8000 < d.delta_t
  · have hv : validate_inputs d = 14 := by
      simp only [validate_inputs, if_neg h1, if_neg h2, if_neg h3, if_neg h4, if_neg h5, if_neg h6, if_neg h7, if_neg h8, if_neg h9, if_neg h10, if_neg h11, if_neg h12, if_neg h13, if_pos h14]
    refine Or.inl ?_
    rw [hv]
    exact h14
  by_cases h15 : d.slope < -360 ∨ 360 < d.slope
  · have hv : validate_inputs d = 15 := by
      simp only [validate_inputs, if_neg h1, if_neg h2, if_neg h3, if_neg h4, if_neg h5, if_neg h6, if_neg h7, if_neg h8, if_neg h9, if_neg h10, if_neg h11, if_neg h12, if_neg h13, if_neg h14, if_pos h15]
    refine Or.inl ?_
    rw [hv]
    exact h15
  by_cases h16 : d.azm_rotation < -360 ∨ 360 < d.azm_rotation
  · have hv : validate_inputs d = 16 := by
      simp only [validate_inputs, if_neg h1, if_neg h2, if_neg h3, if_neg h4, if_neg h5, if_neg h6, if_neg h7, if_neg h8, if_neg h9, if_neg h10, if_neg h11, if_neg h12, if_neg h13, if_neg h14, if_neg h15, if_pos h16]
    refine Or.inl ?_
    rw [hv]
    exact h16
  by_cases h17 : d.atmos_refract < -5 ∨ 5 < d.atmos_refract
  · have hv : validate_inputs d = 17 := by
      simp only [validate_inputs, if_neg h1, if_neg h2, if_neg h3, if_neg h4, if_neg h5, if_neg h6, if_neg h7, if_neg h8, if_neg h9, if_neg h10, if_neg h11, if_neg h12, if_neg h13, if_neg h14, if_neg h15, if_neg h16, if_pos h17]
    refine Or.inl ?_
    rw [hv]
    exact h17
  refine Or.inr ?_
  simp only [validate_inputs, if_neg h1, if_neg h2, if_neg h3, if_neg h4, if_neg h5, if_neg h6, if_neg h7, if_neg h8, if_neg h9, if_neg h10, if_neg h11, if_neg h12, if_neg h13, if_neg h14, if_neg h15, if_neg h16, if_neg h17]

/-- On a failed validation, spa_calculate returns the code with the
untouched output fields: no computation stage is invoked. -/
theorem spa_calculate_fail (E : SpaEngine) (d : SpaData)
    (h : validate_inputs d.toSpaInput ≠ 0) :
    spa_calculate E d = (validate_inputs d.toSpaInput, E.uninit) := by
  simp only [spa_calculate, if_pos h]

/-- On a passed validation, spa_calculate returns code 0 and, for every
function code, the zenith and both azimuth conventions of the
current-instant path, with the navigational azimuth obtained from the
astronomical one by adding 180 degrees and reducing mod 360. -/
theorem spa_calculate_ok (E : SpaEngine) (d : SpaData)
    (h : validate_inputs d.toSpaInput = 0) :
    (spa_calculate E d).1 = 0 ∧
    (spa_calculate E d).2.zenith = (E.za d.toSpaInput).zenith ∧
    (spa_calculate E d).2.azimuth_astro = (E.za d.toSpaInput).azimuth_astro ∧
    (spa_calculate E d).2.azimuth = limit_degrees ((E.za d.toSpaInput).azimuth_astro + 180) := by
  by_cases hinc : d.function = SPA_ZA_INC ∨ d.function = SPA_ALL <;>
  by_cases hrts : d.function = SPA_ZA_RTS ∨ d.function = SPA_ALL <;>
  rcases hr : E.rts d.toSpaInput with ⟨rise, transit, sset, alt⟩ | _ <;>
  simp [spa_calculate, h, hinc, hrts, hr]

/-- The modern wrapper copies its input scalars into spa_data unchanged. -/
theorem modern_build_exact (inp : SpaInput) (fcode : Nat) :
    (modern_build_spa_data inp fcode).toSpaInput = inp ∧
    (modern_build_spa_data inp fcode).function = fcode := by
  exact ⟨rfl, rfl⟩

/-- A padded component is always two characters for values below 100. -/
theorem pad2_length : ∀ n : Nat, n < 100 → (pad2 n).length = 2 := by decide

/-- Closed form of formatTime on a non-negative finite value: the input is
rounded to the nearest whole second, the hour is reduced mod 24, and the
remainder is split into minutes and seconds. -/
theorem formatTime_num_eq (q : ℚ) (h : 0 ≤ q) :
    formatTime (JSNum.num q) =
      pad2 ((⌊q * 3600 + 1/2⌋).toNat / 3600 % 24) ++ ":" ++
      pad2 ((⌊q * 3600 + 1/2⌋).toNat % 3600 / 60) ++ ":" ++
      pad2 ((⌊q * 3600 + 1/2⌋).toNat % 3600 % 60) := by
  have hq : ¬ q < 0 := not_lt.mpr h
  simp only [formatTime, if_neg hq]
  generalize (⌊q * 3600 + 1/2⌋).toNat = t
  have e1 : t - t / 3600 * 3600 = t % 3600 := by omega
  rw [e1]
  have e2 : t % 3600 - t % 3600 / 60 * 60 = t % 3600 % 60 := by omega
  rw [e2]

/-- formatTime yields an eight-character string on every non-negative
finite input. -/
theorem formatTime_length (q : ℚ) (h : 0 ≤ q) :
    (formatTime (JSNum.num q)).length = 8 := by
  rw [formatTime_num_eq q h]
  have b1 : (⌊q * 3600 + 1/2⌋).toNat / 3600 % 24 < 100 := by omega
  have b2 : (⌊q * 3600 + 1/2⌋).toNat % 3600 / 60 < 100 := by omega
  have b3 : (⌊q * 3600 + 1/2⌋).toNat % 3600 % 60 < 100 := by omega
  simp only [String.length_append, pad2_length _ b1, pad2_length _ b2, pad2_length _ b3]
  decide

/-- formatTime never reports N/A for a non-negative finite time value. -/
theorem formatTime_ne_NA (q : ℚ) (h : 0 ≤ q) :
    formatTime (JSNum.num q) ≠ "N/A" := by
  intro he
  have h8 := formatTime_length q h
  rw [he] at h8
  exact absurd h8 (by decide)

/-- formatTime reports N/A on every negative finite value. -/
theorem formatTime_neg (q : ℚ) (h : q < 0) : formatTime (JSNum.num q) = "N/A" := by
  simp only [formatTime, if_pos h]

/-- The NYC June 2025 instantiation input passes validation. -/
theorem validate_validInput : validate_inputs validInput = 0 := by
  norm_num [validate_inputs, validInput]

/-- The year 6001 scenario input fails validation with the code that
numbers the year field. -/
theorem validate_year6001 : validate_inputs year6001Input = 1 := by
  norm_num [validate_inputs, year6001Input]

/-- On any validation failure the modern wrapper returns the all-zero
result carrying the validation code. -/
theorem spa_calculate_wrapper_fail (E : SpaEngine) (inp : SpaInput) (fcode : Nat)
    (h : validate_inputs inp ≠ 0) :
    spa_calculate_wrapper E inp fcode =
      { zenith := 0
        azimuth_astro := 0
        azimuth := 0
        incidence := 0
        sunrise := 0
        sunset := 0
        suntransit := 0
        sun_transit_alt := 0
        eot := 0
        error_code := validate_inputs inp } := by
  simp [spa_calculate_wrapper, spa_calculate, modern_build_spa_data, h]

/-- Closed form of the modern wrapper under SPA_ALL when the solver ends in
the NO_CROSSING state: the four solver outputs carry the sentinel. -/
theorem spa_calculate_wrapper_ALL_noCrossing (E : SpaEngine) (inp : SpaInput)
    (h : validate_inputs inp = 0) (hr : E.rts inp = RtsOutcome.noCrossing) :
    spa_calculate_wrapper E inp SPA_ALL =
      { zenith := (E.za inp).zenith
        azimuth_astro := (E.za inp).azimuth_astro
        azimuth := limit_degrees ((E.za inp).azimuth_astro + 180)
        incidence := E.incidence inp (E.za inp)
        sunrise := noCrossingSentinel
        sunset := noCrossingSentinel
        suntransit := noCrossingSentinel
        sun_transit_alt := noCrossingSentinel
        eot := E.eot inp
        error_code := 0 } := by
  simp [spa_calculate_wrapper, spa_calculate, modern_build_spa_data, h, hr,
    SPA_ZA_INC, SPA_ZA_RTS, SPA_ALL]

/-- The marshalled test input passes validation. -/
theorem validate_testInput : validate_inputs testInput = 0 := by
  norm_num [validate_inputs, testInput]

/-- An angle already in [0, 360) is fixed by the mod 360 reduction. -/
theorem limit_degrees_180 : limit_degrees 180 = 180 := by
  have h0 : ⌊(180:ℚ) / 360⌋ = 0 := by
    rw [Int.floor_eq_iff]
    constructor <;> norm_num
  simp [limit_degrees, h0]

/-- Adding 180 to the astronomical azimuth 180 wraps the navigational
azimuth to 0. -/
theorem limit_degrees_360 : limit_degrees 360 = 0 := by
  have h0 : ⌊(360:ℚ) / 360⌋ = 1 := by
    rw [Int.floor_eq_iff]
    constructor <;> norm_num
  simp [limit_degrees, h0]

/-- The modern wrapper on the test fixture under trivialEngine. -/
theorem wrapper_testInput_eval :
    spa_calculate_wrapper trivialEngine testInput SPA_ALL = testResult := by
  rw [spa_calculate_wrapper_ALL_noCrossing trivialEngine testInput validate_testInput rfl]
  simp [trivialEngine, testResult, noCrossingSentinel, limit_degrees_180]

/-- spaTS on the test fixture resolves with testResult. -/
theorem spaTS_test_eval :
    spaTS trivialEngine testDate (JSNum.num 40) (JSNum.num (-74)) (some testOptions) =
      Except.ok testResult := by
  have hstep :
      spaTS trivialEngine testDate (JSNum.num 40) (JSNum.num (-74)) (some testOptions) =
        (if (spa_calculate_wrapper trivialEngine testInput SPA_ALL).error_code ≠ 0
          then Except.error (JsError.calcError (spa_calculate_wrapper trivialEngine testInput SPA_ALL).error_code)
          else Except.ok (spa_calculate_wrapper trivialEngine testInput SPA_ALL)) := by
    norm_num [spaTS, testDate, testOptions, testInput, SPA_ALL]
  rw [hstep, wrapper_testInput_eval]
  simp [testResult]

/-- formatTime at 24.5 fractional hours: 88200 seconds wraps past 24h to
half past midnight. -/
theorem formatTime_245 : formatTime (JSNum.num (49/2)) = "00:30:00" := by
  have h0 : ¬((49:ℚ)/2 < 0) := by norm_num
  have hf : ⌊(49:ℚ)/2 * 3600 + 1/2⌋ = 88200 := by
    rw [Int.floor_eq_iff]
    constructor <;> norm_num
  simp only [formatTime, if_neg h0, hf]
  decide

/-- formatTime at 23.9999 fractional hours: rounding reaches 24:00:00,
which wraps to midnight. -/
theorem formatTime_239999 : formatTime (JSNum.num (239999/10000)) = "00:00:00" := by
  have h0 : ¬((239999:ℚ)/10000 < 0) := by norm_num
  have hf : ⌊(239999:ℚ)/10000 * 3600 + 1/2⌋ = 86400 := by
    rw [Int.floor_eq_iff]
    constructor <;> norm_num
  simp only [formatTime, if_neg h0, hf]
  decide

/-- Rounding to the nearest whole second: the rounded count differs from
the exact second count by at most one half. -/
theorem formatTime_round_nearest (q : ℚ) :
    |((⌊q * 3600 + 1/2⌋ : ℤ) : ℚ) - q * 3600| ≤ 1/2 := by
  have h1 := Int.floor_le (q * 3600 + 1/2)
  have h2 := Int.lt_floor_add_one (q * 3600 + 1/2)
  rw [abs_le]
  constructor <;> linarith

/-- C8: for every finite input hours at least 0, formatTime returns a
string of the exact form HH:MM:SS with HH in 00..23 and MM, SS in 00..59,
obtained by rounding the input to the nearest whole second and reducing
the hour modulo 24; 24.5 yields 00:30:00 and a value that rounds up to
24:00:00 wraps to 00:00:00; every negative or non-finite input yields
N/A. -/
theorem C8_formatTime_shape :
    (∀ q : ℚ, 0 ≤ q →
      formatTime (JSNum.num q) =
        pad2 ((⌊q * 3600 + 1/2⌋).toNat / 3600 % 24) ++ ":" ++
        pad2 ((⌊q * 3600 + 1/2⌋).toNat % 3600 / 60) ++ ":" ++
        pad2 ((⌊q * 3600 + 1/2⌋).toNat % 3600 % 60) ∧
      (⌊q * 3600 + 1/2⌋).toNat / 3600 % 24 < 24 ∧
      (⌊q * 3600 + 1/2⌋).toNat % 3600 / 60 < 60 ∧
      (⌊q * 3600 + 1/2⌋).toNat % 3600 % 60 < 60 ∧
      |((⌊q * 3600 + 1/2⌋ : ℤ) : ℚ) - q * 3600| ≤ 1/2 ∧
      (formatTime (JSNum.num q)).length = 8) ∧
    formatTime (JSNum.num (49/2)) = "00:30:00" ∧
    formatTime (JSNum.num (239999/10000)) = "00:00:00" ∧
    (∀ q : ℚ, q < 0 → formatTime (JSNum.num q) = "N/A") ∧
    formatTime JSNum.nan = "N/A" ∧
    formatTime JSNum.inf = "N/A" ∧
    formatTime JSNum.neginf = "N/A" := by
  refine ⟨fun q h => ⟨formatTime_num_eq q h, by omega, by omega, by omega,
    formatTime_round_nearest q, formatTime_length q h⟩,
    formatTime_245, formatTime_239999, fun q h => formatTime_neg q h, rfl, rfl, rfl⟩

/-- C8 witness: the theorem instantiated at 6.5 fractional hours. -/
theorem C8_formatTime_shape_witness :
    (0:ℚ) ≤ 13/2 ∧ (formatTime (JSNum.num (13/2))).length = 8 :=
  ⟨by norm_num, (C8_formatTime_shape.1 (13/2) (by norm_num)).2.2.2.2.2⟩

/-- C9: whenever spa resolves with a result, spaFormatted with the same
arguments resolves with the identical numeric fields and error code, and
with sunrise, sunset and suntransit replaced by formatTime of the
corresponding fractional hours; no field is otherwise altered, added or
dropped. -/
theorem C9_formatted_frame :
    ∀ (E : SpaEngine) (date : JSDate) (lat lon : JSNum) (opts : Option SpaOptionsTS)
      (r : spa_result),
      spaTS E date lat lon opts = Except.ok r →
      spaFormattedTS E date lat lon opts = Except.ok
        { zenith := r.zenith
          azimuth_astro := r.azimuth_astro
          azimuth := r.azimuth
          incidence := r.incidence
          sunrise := formatTime (JSNum.num r.sunrise)
          sunset := formatTime (JSNum.num r.sunset)
          suntransit := formatTime (JSNum.num r.suntransit)
          sun_transit_alt := r.sun_transit_alt
          eot := r.eot
          error_code := r.error_code } := by
  intro E date lat lon opts r h
  simp [spaFormattedTS, h, Except.map]

/-- C9 witness: the frame property instantiated on the test fixture, where
the NO_CROSSING sentinel turns the three time strings into N/A. -/
theorem C9_formatted_frame_witness :
    spaFormattedTS trivialEngine testDate (JSNum.num 40) (JSNum.num (-74)) (some testOptions) =
      Except.ok
        { zenith := 0
          azimuth_astro := 0
          azimuth := 180
          incidence := 0
          sunrise := formatTime (JSNum.num (-99999))
          sunset := formatTime (JSNum.num (-99999))
          suntransit := formatTime (JSNum.num (-99999))
          sun_transit_alt := -99999
          eot := 0
          error_code := 0 } :=
  C9_formatted_frame trivialEngine testDate (JSNum.num 40) (JSNum.num (-74))
    (some testOptions) testResult spaTS_test_eval

/-- Success-path projections of the modern wrapper: error code 0 and the
current-instant fields, for every function code. -/
theorem spa_calculate_wrapper_ok_proj (E : SpaEngine) (inp : SpaInput) (fcode : Nat)
    (h : validate_inputs inp = 0) :
    (spa_calculate_wrapper E inp fcode).error_code = 0 ∧
    (spa_calculate_wrapper E inp fcode).zenith = (E.za inp).zenith ∧
    (spa_calculate_wrapper E inp fcode).azimuth_astro = (E.za inp).azimuth_astro ∧
    (spa_calculate_wrapper E inp fcode).azimuth =
      limit_degrees ((E.za inp).azimuth_astro + 180) := by
  obtain ⟨h0, hz, ha, hn⟩ := spa_calculate_ok E (modern_build_spa_data inp fcode) h
  simp [spa_calculate_wrapper, h0, hz, ha, hn, (modern_build_exact inp fcode).1]

/-- C2: on every valid input and under every function code, the
navigational azimuth of the returned result equals the astronomical
azimuth plus 180 degrees reduced mod 360; in particular the two agree to
within one millionth of a degree. -/
theorem C2_azimuth_convention :
    ∀ (E : SpaEngine) (inp : SpaInput) (fcode : Nat), validate_inputs inp = 0 →
      (spa_calculate_wrapper E inp fcode).azimuth =
        limit_degrees ((spa_calculate_wrapper E inp fcode).azimuth_astro + 180) ∧
      |(spa_calculate_wrapper E inp fcode).azimuth -
        (((spa_calculate_wrapper E inp fcode).azimuth_astro + 180) -
          360 * ⌊((spa_calculate_wrapper E inp fcode).azimuth_astro + 180) / 360⌋)| ≤
        1/1000000 := by
  intro E inp fcode h
  obtain ⟨h0, hz, ha, hn⟩ := spa_calculate_wrapper_ok_proj E inp fcode h
  constructor
  · rw [hn, ha]
  · rw [hn, ha]
    simp only [limit_degrees, sub_self, abs_zero]
    norm_num

/-- C2 witness: the azimuth convention instantiated on the valid NYC input
under trivialEngine and SPA_ALL. -/
theorem C2_azimuth_convention_witness :
    (spa_calculate_wrapper trivialEngine validInput SPA_ALL).azimuth =
      limit_degrees ((spa_calculate_wrapper trivialEngine validInput SPA_ALL).azimuth_astro + 180) :=
  (C2_azimuth_convention trivialEngine validInput SPA_ALL
    (by norm_num [validate_inputs, validInput])).1

/-- C6: on every valid input, any two function codes (in particular ZA,
ZA_INC, ZA_RTS and ALL) return exactly the same zenith and the same both
azimuths, hence agreeing well within 0.01 degrees; incidence and
rise/transit/set are additional outputs of the same current-instant
computation, never an alternate zenith/azimuth path. -/
theorem C6_function_codes_agree :
    ∀ (E : SpaEngine) (inp : SpaInput) (c1 c2 : Nat), validate_inputs inp = 0 →
      (spa_calculate_wrapper E inp c1).zenith = (spa_calculate_wrapper E inp c2).zenith ∧
      (spa_calculate_wrapper E inp c1).azimuth = (spa_calculate_wrapper E inp c2).azimuth ∧
      (spa_calculate_wrapper E inp c1).azimuth_astro =
        (spa_calculate_wrapper E inp c2).azimuth_astro ∧
      |(spa_calculate_wrapper E inp c1).zenith - (spa_calculate_wrapper E inp c2).zenith| ≤ 1/100 ∧
      |(spa_calculate_wrapper E inp c1).azimuth - (spa_calculate_wrapper E inp c2).azimuth| ≤ 1/100 := by
  intro E inp c1 c2 h
  obtain ⟨h10, h1z, h1a, h1n⟩ := spa_calculate_wrapper_ok_proj E inp c1 h
  obtain ⟨h20, h2z, h2a, h2n⟩ := spa_calculate_wrapper_ok_proj E inp c2 h
  refine ⟨by rw [h1z, h2z], by rw [h1n, h2n], by rw [h1a, h2a], ?_, ?_⟩
  · rw [h1z, h2z]
    simp only [sub_self, abs_zero]
    norm_num
  · rw [h1n, h2n]
    simp only [sub_self, abs_zero]
    norm_num

/-- C6 witness: agreement of SPA_ZA with SPA_ALL on the valid NYC input
under trivialEngine. -/
theorem C6_function_codes_agree_witness :
    (spa_calculate_wrapper trivialEngine validInput SPA_ZA).zenith =
      (spa_calculate_wrapper trivialEngine validInput SPA_ALL).zenith :=
  (C6_function_codes_agree trivialEngine validInput SPA_ZA SPA_ALL
    (by norm_num [validate_inputs, validInput])).1

/-- C4: on every valid input whose day has no crossing of the standard
altitude (polar day or polar night), the wrapper reports the negative
sentinel -99999 for sunrise, sunset and suntransit, a value distinct from
every valid time of day; formatTime maps exactly these to N/A while no
non-negative time is ever rendered N/A, and spaFormatted passes sunrise,
sunset and suntransit through formatTime. -/
theorem C4_no_crossing_sentinel :
    (∀ (E : SpaEngine) (inp : SpaInput),
      validate_inputs inp = 0 → E.rts inp = RtsOutcome.noCrossing →
        (spa_calculate_wrapper E inp SPA_ALL).sunrise = noCrossingSentinel ∧
        (spa_calculate_wrapper E inp SPA_ALL).sunset = noCrossingSentinel ∧
        (spa_calculate_wrapper E inp SPA_ALL).suntransit = noCrossingSentinel ∧
        (∀ t : ℚ, 0 ≤ t → t ≤ 24 → (spa_calculate_wrapper E inp SPA_ALL).sunrise ≠ t) ∧
        formatTime (JSNum.num (spa_calculate_wrapper E inp SPA_ALL).sunrise) = "N/A" ∧
        formatTime (JSNum.num (spa_calculate_wrapper E inp SPA_ALL).sunset) = "N/A" ∧
        formatTime (JSNum.num (spa_calculate_wrapper E inp SPA_ALL).suntransit) = "N/A") ∧
    (∀ q : ℚ, 0 ≤ q → formatTime (JSNum.num q) ≠ "N/A") ∧
    (∀ (E : SpaEngine) (date : JSDate) (lat lon : JSNum) (opts : Option SpaOptionsTS)
        (r : spa_result) (fr : SpaFormattedResultTS),
      spaTS E date lat lon opts = Except.ok r →
      spaFormattedTS E date lat lon opts = Except.ok fr →
        fr.sunrise = formatTime (JSNum.num r.sunrise) ∧
        fr.sunset = formatTime (JSNum.num r.sunset) ∧
        fr.suntransit = formatTime (JSNum.num r.suntransit)) := by
  have hs : noCrossingSentinel < 0 := by norm_num [noCrossingSentinel]
  refine ⟨?_, fun q h => formatTime_ne_NA q h, ?_⟩
  · intro E inp h hr
    have hw := spa_calculate_wrapper_ALL_noCrossing E inp h hr
    have hsr : (spa_calculate_wrapper E inp SPA_ALL).sunrise = noCrossingSentinel := by rw [hw]
    have hss : (spa_calculate_wrapper E inp SPA_ALL).sunset = noCrossingSentinel := by rw [hw]
    have hst : (spa_calculate_wrapper E inp SPA_ALL).suntransit = noCrossingSentinel := by rw [hw]
    refine ⟨hsr, hss, hst, ?_, ?_, ?_, ?_⟩
    · intro t ht0 _ he
      rw [hsr] at he
      rw [he] at hs
      exact absurd ht0 (not_le.mpr hs)
    · rw [hsr]
      exact formatTime_neg _ hs
    · rw [hss]
      exact formatTime_neg _ hs
    · rw [hst]
      exact formatTime_neg _ hs
  · intro E date lat lon opts r fr h1 h2
    simp only [spaFormattedTS, h1, Except.map] at h2
    cases h2
    exact ⟨rfl, rfl, rfl⟩

/-- C4 witness: the sentinel behavior instantiated on the valid NYC input
under trivialEngine, whose solver always reports NO_CROSSING. -/
theorem C4_no_crossing_sentinel_witness :
    (spa_calculate_wrapper trivialEngine validInput SPA_ALL).sunrise = noCrossingSentinel ∧
    formatTime (JSNum.num (spa_calculate_wrapper trivialEngine validInput SPA_ALL).sunrise) = "N/A" := by
  obtain ⟨h1, _, _, _, h5, _⟩ := C4_no_crossing_sentinel.1 trivialEngine validInput
    (by norm_num [validate_inputs, validInput]) rfl
  exact ⟨h1, h5⟩

/-- C1: whenever the engine reports failure, the modern wrapper returns the
deterministic filler 0.0 in all nine numeric fields together with the
non-zero code, and spa at the TypeScript layer never resolves with a
non-zero code (it throws instead); in particular year 6001 fails
validation with a non-zero code and yields the all-zero result. -/
theorem C1_error_filler :
    (∀ (E : SpaEngine) (inp : SpaInput) (fcode : Nat),
      validate_inputs inp ≠ 0 →
        (spa_calculate_wrapper E inp fcode).error_code ≠ 0 ∧
        (spa_calculate_wrapper E inp fcode).zenith = 0 ∧
        (spa_calculate_wrapper E inp fcode).azimuth_astro = 0 ∧
        (spa_calculate_wrapper E inp fcode).azimuth = 0 ∧
        (spa_calculate_wrapper E inp fcode).incidence = 0 ∧
        (spa_calculate_wrapper E inp fcode).sunrise = 0 ∧
        (spa_calculate_wrapper E inp fcode).sunset = 0 ∧
        (spa_calculate_wrapper E inp fcode).suntransit = 0 ∧
        (spa_calculate_wrapper E inp fcode).sun_transit_alt = 0 ∧
        (spa_calculate_wrapper E inp fcode).eot = 0) ∧
    (∀ (E : SpaEngine) (date : JSDate) (lat lon : JSNum) (opts : Option SpaOptionsTS)
        (r : spa_result),
      spaTS E date lat lon opts = Except.ok r → r.error_code = 0) ∧
    validate_inputs year6001Input = 1 ∧
    (∀ E : SpaEngine, (spa_calculate_wrapper E year6001Input SPA_ALL).error_code = 1 ∧
      (spa_calculate_wrapper E year6001Input SPA_ALL).zenith = 0) := by
  have hone : validate_inputs year6001Input ≠ 0 := by
    rw [validate_year6001]
    exact one_ne_zero
  refine ⟨?_, ?_, validate_year6001, ?_⟩
  · intro E inp fcode h
    rw [spa_calculate_wrapper_fail E inp fcode h]
    exact ⟨h, rfl, rfl, rfl, rfl, rfl, rfl, rfl, rfl, rfl⟩
  · intro E date lat lon opts r h
    simp only [spaTS] at h
    by_cases hd : date.valid
    · rcases lat with lv | _ | _ | _
      · rcases lon with gv | _ | _ | _
        · simp only [hd, not_true, if_false] at h
          split_ifs at h with h1 h2 h3
          rw [Except.ok.injEq] at h
          rw [← h]
          exact not_not.mp h3
        · simp [hd] at h
        · simp [hd] at h
        · simp [hd] at h
      · simp [hd] at h
      · simp [hd] at h
      · simp [hd] at h
    · simp [hd] at h
  · intro E
    rw [spa_calculate_wrapper_fail E year6001Input SPA_ALL hone, validate_year6001]
    exact ⟨rfl, rfl⟩

/-- C1 witness: the filler behavior at the year 6001 input under
trivialEngine. -/
theorem C1_error_filler_witness :
    (spa_calculate_wrapper trivialEngine year6001Input SPA_ALL).error_code ≠ 0 ∧
    (spa_calculate_wrapper trivialEngine year6001Input SPA_ALL).zenith = 0 ∧
    (spa_calculate_wrapper trivialEngine year6001Input SPA_ALL).sunrise = 0 := by
  obtain ⟨he, hz, _, _, _, hsr, _⟩ := C1_error_filler.1 trivialEngine year6001Input SPA_ALL
    (by norm_num [validate_inputs, year6001Input])
  exact ⟨he, hz, hsr⟩

/-- C5: a validation failure is immediate (the engine stages are never
invoked and the outputs stay untouched), the non-zero code names the
offending field, and at the TypeScript layer an out-of-range latitude or
longitude throws RangeError for every engine, before the WASM wrapper can
contribute anything to the outcome. -/
theorem C5_validation_gate :
    (∀ (E : SpaEngine) (d : SpaData), validate_inputs d.toSpaInput ≠ 0 →
      spa_calculate E d = (validate_inputs d.toSpaInput, E.uninit)) ∧
    (∀ d : SpaInput, validate_inputs d ≠ 0 → violatesBound d (validate_inputs d)) ∧
    (∀ (E : SpaEngine) (date : JSDate) (lat lon : ℚ) (opts : Option SpaOptionsTS),
      date.valid = true → (lat < -90 ∨ 90 < lat) →
        spaTS E date (JSNum.num lat) (JSNum.num lon) opts =
          Except.error (JsError.rangeError "SPA: latitude must be between -90 and 90")) ∧
    (∀ (E : SpaEngine) (date : JSDate) (lat lon : ℚ) (opts : Option SpaOptionsTS),
      date.valid = true → ¬(lat < -90 ∨ 90 < lat) → (lon < -180 ∨ 180 < lon) →
        spaTS E date (JSNum.num lat) (JSNum.num lon) opts =
          Except.error (JsError.rangeError "SPA: longitude must be between -180 and 180")) := by
  refine ⟨spa_calculate_fail, ?_, ?_, ?_⟩
  · intro d h
    rcases validate_inputs_names d with hv | h0
    · exact hv
    · exact absurd h0 h
  · intro E date lat lon opts hd hlat
    simp [spaTS, hd, hlat]
  · intro E date lat lon opts hd hlat hlon
    simp [spaTS, hd, hlat, hlon]

/-- C5 witness: latitude 100 throws RangeError on the test date for
trivialEngine. -/
theorem C5_validation_gate_witness :
    spaTS trivialEngine testDate (JSNum.num 100) (JSNum.num 0) none =
      Except.error (JsError.rangeError "SPA: latitude must be between -90 and 90") :=
  C5_validation_gate.2.2.1 trivialEngine testDate 100 0 none rfl (by norm_num)

/-- C3 counterexample: the claim fails on the legacy wrapper. Pressure 0 is
inside its documented bound 0..5000, yet the spa_data handed to
spa_calculate carries 820 instead of the supplied 0: the field is silently
replaced by a default. -/
theorem C3_counterexample :
    (0:ℚ) ≤ 0 ∧ (0:ℚ) ≤ 5000 ∧
    (legacy_build_spa_data 0 67 2023 4 1 12 0 0 (-4) 40 (-74) 10 0 20 0 0 1).pressure = 820 ∧
    (legacy_build_spa_data 0 67 2023 4 1 12 0 0 (-4) 40 (-74) 10 0 20 0 0 1).pressure ≠ 0 := by
  norm_num [legacy_build_spa_data]

/-- C3 amended: validation accepts every in-bounds input and the modern
18-argument wrapper computes with exactly the supplied field values, while
an out-of-bounds field yields the distinct code of the first violation; the
legacy 15-argument wrapper, however, silently replaces a pressure,
temperature or atmospheric-refraction argument equal to 0 with the
defaults 820, 11 and 0.5667 before the computation. -/
theorem C3_amended_no_clamping :
    (∀ d : SpaInput, inBounds d → validate_inputs d = 0) ∧
    (∀ (inp : SpaInput) (fcode : Nat),
      (modern_build_spa_data inp fcode).toSpaInput = inp ∧
      (modern_build_spa_data inp fcode).function = fcode) ∧
    (∀ d : SpaInput, validate_inputs d ≠ 0 → violatesBound d (validate_inputs d)) ∧
    (∀ (m1 m2 : ℚ) (y mo dd hh mi : Int) (se tz la lo el sl az : ℚ),
      (legacy_build_spa_data m1 m2 y mo dd hh mi se tz la lo el 0 0 sl az 0).pressure = 820 ∧
      (legacy_build_spa_data m1 m2 y mo dd hh mi se tz la lo el 0 0 sl az 0).temperature = 11 ∧
      (legacy_build_spa_data m1 m2 y mo dd hh mi se tz la lo el 0 0 sl az 0).atmos_refract =
        0.5667) := by
  refine ⟨validate_inputs_of_inBounds, modern_build_exact, ?_, ?_⟩
  · intro d h
    rcases validate_inputs_names d with hv | h0
    · exact hv
    · exact absurd h0 h
  · intro m1 m2 y mo dd hh mi se tz la lo el sl az
    refine ⟨?_, ?_, ?_⟩ <;> simp [legacy_build_spa_data]

/-- C3 witness: acceptance and exact pass-through at the valid NYC input. -/
theorem C3_amended_no_clamping_witness :
    validate_inputs validInput = 0 ∧
    (modern_build_spa_data validInput SPA_ALL).toSpaInput = validInput :=
  ⟨C3_amended_no_clamping.1 validInput (by norm_num [inBounds, validInput]),
    (C3_amended_no_clamping.2.1 validInput SPA_ALL).1⟩

/-- C10: when spa_calculate rejects the input of the legacy 15-argument
wrapper, the promise still resolves normally with all seven fields equal
to 0; the legacy struct consists of exactly those seven doubles and no
error code, and an all-zero record is also reachable by a genuine
successful computation, so the caller cannot tell the two apart. -/
theorem C10_legacy_silent_failure :
    (∀ (E : SpaEngine) (m1 m2 : ℚ) (year month day hour minute : Int)
        (second timezone latitude longitude elevation pressure temperature slope
          azm_rotation atmos_refract : ℚ),
      validate_inputs (legacy_build_spa_data m1 m2 year month day hour minute second timezone
          latitude longitude elevation pressure temperature slope azm_rotation
          atmos_refract).toSpaInput ≠ 0 →
      legacy_spa_calculate_wrapper E m1 m2 year month day hour minute second timezone
          latitude longitude elevation pressure temperature slope azm_rotation atmos_refract =
        { zenith := 0
          azimuth := 0
          incidence := 0
          sunrise := 0
          sunset := 0
          solar_noon := 0
          sun_transit_alt := 0 }) ∧
    (∀ (E : SpaEngine) (m1 m2 : ℚ) (date : JSDate)
        (latitude longitude elevation temperature pressure refraction : ℚ),
      legacy_spa_js E m1 m2 date latitude longitude elevation temperature pressure refraction =
        legacy_spa_calculate_wrapper E m1 m2 date.getFullYear (date.getMonth + 1) date.getDate
          date.getHours date.getMinutes (date.getSeconds : ℚ) (-(date.getTimezoneOffset / 60))
          latitude longitude elevation pressure temperature 0 0 refraction) ∧
    (legacy_spa_calculate_wrapper allZeroResultEngine 0 67 2025 6 21 12 0 0 (-4) 40 (-74) 10
        1000 15 0 0 1 =
      { zenith := 0
        azimuth := 0
        incidence := 0
        sunrise := 0
        sunset := 0
        solar_noon := 0
        sun_transit_alt := 0 } ∧
      validate_inputs (legacy_build_spa_data 0 67 2025 6 21 12 0 0 (-4) 40 (-74) 10
          1000 15 0 0 1).toSpaInput = 0) := by
  refine ⟨?_, fun E m1 m2 date la lo el te pr re => rfl, ?_, ?_⟩
  · intro E m1 m2 year month day hour minute second timezone latitude longitude elevation
      pressure temperature slope azm_rotation atmos_refract h
    have hf := spa_calculate_fail E _ h
    simp [legacy_spa_calculate_wrapper, hf, h]
  · norm_num [legacy_spa_calculate_wrapper, spa_calculate, legacy_build_spa_data,
      allZeroResultEngine, validate_inputs, SPA_ALL, SPA_ZA_INC, SPA_ZA_RTS, limit_degrees_360]
  · norm_num [legacy_build_spa_data, validate_inputs]

/-- C10 witness: an out-of-range latitude through the legacy wrapper still
yields the all-zero record under trivialEngine. -/
theorem C10_legacy_silent_failure_witness :
    legacy_spa_calculate_wrapper trivialEngine 0 67 2025 6 21 12 0 0 (-4) 100 (-74) 10
        1000 15 0 0 1 =
      { zenith := 0
        azimuth := 0
        incidence := 0
        sunrise := 0
        sunset := 0
        solar_noon := 0
        sun_transit_alt := 0 } :=
  C10_legacy_silent_failure.1 trivialEngine 0 67 2025 6 21 12 0 0 (-4) 100 (-74) 10
    1000 15 0 0 1 (by norm_num [legacy_build_spa_data, validate_inputs])
